import Mathlib

/-!
Shallow embedding of `src/wgengine/router/dns_linux.go` (package `router`):
systemd-resolved detection and per-link DNS configuration over D-Bus.

External effects are modelled by an explicit environment `Env` holding the
results the operating system and libraries would return:
the target of the `/etc/resolv.conf` symbolic link (`os.Readlink`),
the system-bus connection attempt (`dbus.SystemBus`),
the Tailscale interface lookup (`interfaces.Tailscale`),
and the outcome of each D-Bus method call (`CallWithContext`).
The operations return their Go result together with the ordered list of
remote calls they issued, so that claims about call order, call arguments
and absence of side effects become provable statements.
-/

namespace DnsLinux

/-- Linux `unix.AF_INET` constant. -/
def AF_INET : Nat := 2

/-- Linux `unix.AF_INET6` constant. -/
def AF_INET6 : Nat := 10

/-- Go constant `systemdSetTimeout = time.Second`, in nanoseconds
(Go `time.Duration` counts nanoseconds). -/
def systemdSetTimeout : Nat := 1000000000

/-- Go variable `systemdStubPaths`: the locations of systemd resolv.conf stubs. -/
def systemdStubPaths : List String :=
  [ "/lib/systemd/resolv.conf",
    "/usr/lib/systemd/resolv.conf",
    "/run/systemd/resolve/stub-resolv.conf",
    "/var/run/systemd/resolve/stub-resolv.conf" ]

/-- Model of `netaddr.IP`: `as16` is the 16-byte form returned by `As16`
(a Go `[16]byte`, hence always of length 16), `is4` the result of `Is4`. -/
structure IP where
  is4 : Bool
  as16 : List Nat
  as16_len : as16.length = 16

/-- Go struct `systemdLinkNameserver`. -/
structure systemdLinkNameserver where
  Family : Nat
  Address : List Nat
deriving DecidableEq, Repr

/-- Go struct `systemdLinkDomain`. -/
structure systemdLinkDomain where
  Domain : String
  RoutingOnly : Bool
deriving DecidableEq, Repr

/-- Model of `interfaces.Interface`: only its `Index` field is used here. -/
structure Interface where
  Index : Int
deriving DecidableEq, Repr

/-- Outcome of a D-Bus call: `deadlineExceeded` models the context timeout
elapsing before the call completes; `other` any other transport or
remote-side error. -/
inductive CallErr where
  | deadlineExceeded
  | other (msg : String)
deriving DecidableEq, Repr

/-- Argument payload of a D-Bus method call after the interface index. -/
inductive BusArg where
  | nameservers (ns : List systemdLinkNameserver)
  | domains (ds : List systemdLinkDomain)
  | noArg
deriving DecidableEq, Repr

/-- One remote call as issued by `resolved.CallWithContext`: destination,
object path, the timeout budget of the context passed to the call, method
name, flags, the interface index argument and the remaining payload. -/
structure BusCall where
  dest : String
  objPath : String
  ctxTimeout : Nat
  method : String
  flags : Nat
  ifindex : Int
  arg : BusArg
deriving DecidableEq, Repr

/-- Environment: results the external world returns to the program. -/
structure Env where
  readlinkResolvConf : Except String String
  systemBus : Except String Unit
  tailscaleInterface : Except String (Option Interface)
  callResult : BusCall → Option CallErr

/-- The Go `error` values `systemdUpDNS` and `systemdDownDNS` can return:
the sentinels `errNotSystemd` and `errNotReady`, and the four
`fmt.Errorf` wrappings, each keeping its wrapped cause. -/
inductive DNSError where
  | notSystemd
  | notReady
  | busConnect (cause : String)
  | ifaceResolve (cause : String)
  | setLinkDNSFailed (cause : CallErr)
  | setLinkDomainsFailed (cause : CallErr)
  | revertLinkFailed (cause : CallErr)
deriving DecidableEq, Repr

/-- An error is a timeout when the wrapped cause of a remote call is the
context deadline having been exceeded. -/
def DNSError.isTimeout : DNSError → Bool
  | .setLinkDNSFailed .deadlineExceeded => true
  | .setLinkDomainsFailed .deadlineExceeded => true
  | .revertLinkFailed .deadlineExceeded => true
  | _ => false

/-- Whether an operation result is a timeout failure. -/
def resultIsTimeout : Except DNSError Unit → Bool
  | .error e => e.isTimeout
  | .ok _ => false

/-- Go function `systemdIsActive`: read the target of `/etc/resolv.conf`;
on any read error return false; otherwise return whether the target equals
one of the stub paths. -/
def systemdIsActive (readlinkResult : Except String String) : Bool :=
  match readlinkResult with
  | .error _ => false
  | .ok dst => systemdStubPaths.any (fun path => dst == path)

/-- Marshaling of one `netaddr.IP` into a `systemdLinkNameserver`, as done
by the loop body in `systemdUpDNS`: v4 addresses get `unix.AF_INET` and
`ip[12:]`, others `unix.AF_INET6` and `ip[:]`. -/
def marshalNameserver (server : IP) : systemdLinkNameserver :=
  if server.is4 then
    { Family := AF_INET, Address := server.as16.drop 12 }
  else
    { Family := AF_INET6, Address := server.as16 }

/-- The `linkNameservers` slice built by `systemdUpDNS`. -/
def linkNameserversOf (servers : List IP) : List systemdLinkNameserver :=
  servers.map marshalNameserver

/-- The `linkDomains` slice built by `systemdUpDNS`: every entry has
`RoutingOnly` false. -/
def linkDomainsOf (domains : List String) : List systemdLinkDomain :=
  domains.map (fun domain => { Domain := domain, RoutingOnly := false })

/-- D-Bus destination used by both operations. -/
def resolvedDest : String := "org.freedesktop.resolve1"

/-- D-Bus object path used by both operations. -/
def resolvedObjPath : String := "/org/freedesktop/resolve1"

/-- The `SetLinkDNS` call as issued by `systemdUpDNS`. -/
def setLinkDNSCall (ifindex : Int) (ns : List systemdLinkNameserver) : BusCall :=
  { dest := resolvedDest, objPath := resolvedObjPath,
    ctxTimeout := systemdSetTimeout,
    method := "org.freedesktop.resolve1.Manager.SetLinkDNS",
    flags := 0, ifindex := ifindex, arg := .nameservers ns }

/-- The `SetLinkDomains` call as issued by `systemdUpDNS`. -/
def setLinkDomainsCall (ifindex : Int) (ds : List systemdLinkDomain) : BusCall :=
  { dest := resolvedDest, objPath := resolvedObjPath,
    ctxTimeout := systemdSetTimeout,
    method := "org.freedesktop.resolve1.Manager.SetLinkDomains",
    flags := 0, ifindex := ifindex, arg := .domains ds }

/-- The `RevertLink` call as issued by `systemdDownDNS`. -/
def revertLinkCall (ifindex : Int) : BusCall :=
  { dest := resolvedDest, objPath := resolvedObjPath,
    ctxTimeout := systemdSetTimeout,
    method := "org.freedesktop.resolve1.Manager.RevertLink",
    flags := 0, ifindex := ifindex, arg := .noArg }

/-- Go function `systemdUpDNS`: detector check, bus connection, interface
resolution, then the `SetLinkDNS` and `SetLinkDomains` calls in order,
stopping at the first failure. Returns the Go result together with the
ordered list of remote calls issued. -/
def systemdUpDNS (env : Env) (servers : List IP) (domains : List String) :
    Except DNSError Unit × List BusCall :=
  if !systemdIsActive env.readlinkResolvConf then
    (.error .notSystemd, [])
  else
    match env.systemBus with
    | .error e => (.error (.busConnect e), [])
    | .ok _ =>
      match env.tailscaleInterface with
      | .error e => (.error (.ifaceResolve e), [])
      | .ok none => (.error .notReady, [])
      | .ok (some iface) =>
        match env.callResult (setLinkDNSCall iface.Index (linkNameserversOf servers)) with
        | some e => (.error (.setLinkDNSFailed e),
            [setLinkDNSCall iface.Index (linkNameserversOf servers)])
        | none =>
          match env.callResult (setLinkDomainsCall iface.Index (linkDomainsOf domains)) with
          | some e => (.error (.setLinkDomainsFailed e),
              [setLinkDNSCall iface.Index (linkNameserversOf servers),
               setLinkDomainsCall iface.Index (linkDomainsOf domains)])
          | none => (.ok (),
              [setLinkDNSCall iface.Index (linkNameserversOf servers),
               setLinkDomainsCall iface.Index (linkDomainsOf domains)])

/-- Go function `systemdDownDNS`: same detector check, bus connection and
interface resolution as `systemdUpDNS`, then the single `RevertLink` call. -/
def systemdDownDNS (env : Env) : Except DNSError Unit × List BusCall :=
  if !systemdIsActive env.readlinkResolvConf then
    (.error .notSystemd, [])
  else
    match env.systemBus with
    | .error e => (.error (.busConnect e), [])
    | .ok _ =>
      match env.tailscaleInterface with
      | .error e => (.error (.ifaceResolve e), [])
      | .ok none => (.error .notReady, [])
      | .ok (some iface) =>
        match env.callResult (revertLinkCall iface.Index) with
        | some e => (.error (.revertLinkFailed e), [revertLinkCall iface.Index])
        | none => (.ok (), [revertLinkCall iface.Index])

/-- The address 1.1.1.1: `Is4` true, `As16` its v4-mapped 16-byte form. -/
def ip4One : IP :=
  ⟨true, [0, 0, 0, 0, 0, 0, 0, 0, 0, 0, 255, 255, 1, 1, 1, 1], by decide⟩

/-- The address 2606:4700:4700::1111: `Is4` false, full 16-byte form. -/
def ip6One : IP :=
  ⟨false, [38, 6, 71, 0, 71, 0, 0, 0, 0, 0, 0, 0, 0, 0, 17, 17], by decide⟩

/-- Environment where every external step succeeds; the symbolic link points
at a stub path and the Tailscale interface has index 7. -/
def envAllOk : Env :=
  { readlinkResolvConf := .ok "/run/systemd/resolve/stub-resolv.conf",
    systemBus := .ok (),
    tailscaleInterface := .ok (some ⟨7⟩),
    callResult := fun _ => none }

/-- Environment where reading the symbolic link fails. -/
def envInactive : Env :=
  { envAllOk with readlinkResolvConf := .error "EINVAL" }

/-- Environment where the system-bus connection fails. -/
def envBusFail : Env :=
  { envAllOk with systemBus := .error "dial unix /var/run/dbus/system_bus_socket" }

/-- Environment where interface resolution succeeds but finds no interface. -/
def envNoIface : Env :=
  { envAllOk with tailscaleInterface := .ok none }

/-- Environment where interface resolution itself fails. -/
def envIfaceErr : Env :=
  { envAllOk with tailscaleInterface := .error "route ip+net: netlinkrib" }

/-- Environment where the first remote call exceeds its context deadline. -/
def envCall1Timeout : Env :=
  { envAllOk with
    callResult := fun c =>
      if c.method == "org.freedesktop.resolve1.Manager.SetLinkDNS" then
        some CallErr.deadlineExceeded
      else
        none }

/-- Environment where the first remote call fails with a remote-side error. -/
def envCall1Fail : Env :=
  { envAllOk with
    callResult := fun c =>
      if c.method == "org.freedesktop.resolve1.Manager.SetLinkDNS" then
        some (CallErr.other "org.freedesktop.resolve1.LinkBusy")
      else
        none }

/-! Helper lemmas: how each operation reduces along each control path. -/

/-- Detector inactive: both operations stop at once. -/
theorem upDNS_inactive (env : Env) (servers : List IP) (domains : List String)
    (h : systemdIsActive env.readlinkResolvConf = false) :
    systemdUpDNS env servers domains = (.error .notSystemd, []) := by
  simp [systemdUpDNS, h]

/-- Detector inactive: `systemdDownDNS` stops at once. -/
theorem downDNS_inactive (env : Env)
    (h : systemdIsActive env.readlinkResolvConf = false) :
    systemdDownDNS env = (.error .notSystemd, []) := by
  simp [systemdDownDNS, h]

/-- Bus connection fails: `systemdUpDNS` returns the wrapped error. -/
theorem upDNS_busError (env : Env) (servers : List IP) (domains : List String)
    (hact : systemdIsActive env.readlinkResolvConf = true)
    (hbus : env.systemBus = .error e) :
    systemdUpDNS env servers domains = (.error (.busConnect e), []) := by
  simp [systemdUpDNS, hact, hbus]

/-- Bus connection fails: `systemdDownDNS` returns the wrapped error. -/
theorem downDNS_busError (env : Env)
    (hact : systemdIsActive env.readlinkResolvConf = true)
    (hbus : env.systemBus = .error e) :
    systemdDownDNS env = (.error (.busConnect e), []) := by
  simp [systemdDownDNS, hact, hbus]

/-- Interface resolution errors: `systemdUpDNS` returns the wrapped error. -/
theorem upDNS_ifaceError (env : Env) (servers : List IP) (domains : List String)
    (hact : systemdIsActive env.readlinkResolvConf = true)
    (hbus : env.systemBus = .ok ())
    (hif : env.tailscaleInterface = .error e) :
    systemdUpDNS env servers domains = (.error (.ifaceResolve e), []) := by
  simp [systemdUpDNS, hact, hbus, hif]

/-- Interface resolution errors: `systemdDownDNS` returns the wrapped error. -/
theorem downDNS_ifaceError (env : Env)
    (hact : systemdIsActive env.readlinkResolvConf = true)
    (hbus : env.systemBus = .ok ())
    (hif : env.tailscaleInterface = .error e) :
    systemdDownDNS env = (.error (.ifaceResolve e), []) := by
  simp [systemdDownDNS, hact, hbus, hif]

/-- Interface absent: `systemdUpDNS` returns `errNotReady`. -/
theorem upDNS_noIface (env : Env) (servers : List IP) (domains : List String)
    (hact : systemdIsActive env.readlinkResolvConf = true)
    (hbus : env.systemBus = .ok ())
    (hif : env.tailscaleInterface = .ok none) :
    systemdUpDNS env servers domains = (.error .notReady, []) := by
  simp [systemdUpDNS, hact, hbus, hif]

/-- Interface absent: `systemdDownDNS` returns `errNotReady`. -/
theorem downDNS_noIface (env : Env)
    (hact : systemdIsActive env.readlinkResolvConf = true)
    (hbus : env.systemBus = .ok ())
    (hif : env.tailscaleInterface = .ok none) :
    systemdDownDNS env = (.error .notReady, []) := by
  simp [systemdDownDNS, hact, hbus, hif]

/-- Interface present: `systemdUpDNS` reduces to the two-call sequence. -/
theorem upDNS_active (env : Env) (servers : List IP) (domains : List String)
    (iface : Interface)
    (hact : systemdIsActive env.readlinkResolvConf = true)
    (hbus : env.systemBus = .ok ())
    (hif : env.tailscaleInterface = .ok (some iface)) :
    systemdUpDNS env servers domains =
      match env.callResult (setLinkDNSCall iface.Index (linkNameserversOf servers)) with
      | some e => (.error (.setLinkDNSFailed e),
          [setLinkDNSCall iface.Index (linkNameserversOf servers)])
      | none =>
        match env.callResult (setLinkDomainsCall iface.Index (linkDomainsOf domains)) with
        | some e => (.error (.setLinkDomainsFailed e),
            [setLinkDNSCall iface.Index (linkNameserversOf servers),
             setLinkDomainsCall iface.Index (linkDomainsOf domains)])
        | none => (.ok (),
            [setLinkDNSCall iface.Index (linkNameserversOf servers),
             setLinkDomainsCall iface.Index (linkDomainsOf domains)]) := by
  simp [systemdUpDNS, hact, hbus, hif]

/-- Interface present: `systemdDownDNS` reduces to the single revert call. -/
theorem downDNS_active (env : Env) (iface : Interface)
    (hact : systemdIsActive env.readlinkResolvConf = true)
    (hbus : env.systemBus = .ok ())
    (hif : env.tailscaleInterface = .ok (some iface)) :
    systemdDownDNS env =
      match env.callResult (revertLinkCall iface.Index) with
      | some e => (.error (.revertLinkFailed e), [revertLinkCall iface.Index])
      | none => (.ok (), [revertLinkCall iface.Index]) := by
  simp [systemdDownDNS, hact, hbus, hif]

/-- Every call issued by `systemdUpDNS` carries the fixed context timeout. -/
theorem upDNS_calls_timeout (env : Env) (servers : List IP) (domains : List String) :
    ∀ c ∈ (systemdUpDNS env servers domains).2, c.ctxTimeout = systemdSetTimeout := by
  intro c hc
  unfold systemdUpDNS at hc
  split at hc
  · simp at hc
  · split at hc
    · simp at hc
    · split at hc
      · simp at hc
      · simp at hc
      · split at hc
        · simp at hc
          subst hc
          rfl
        · split at hc <;>
          · simp at hc
            rcases hc with h | h <;> (subst h; rfl)

/-- Every call issued by `systemdDownDNS` carries the fixed context timeout. -/
theorem downDNS_calls_timeout (env : Env) :
    ∀ c ∈ (systemdDownDNS env).2, c.ctxTimeout = systemdSetTimeout := by
  intro c hc
  unfold systemdDownDNS at hc
  split at hc
  · simp at hc
  · split at hc
    · simp at hc
    · split at hc
      · simp at hc
      · simp at hc
      · split at hc <;>
        · simp at hc
          subst hc
          rfl

/-! Claim theorems. -/

/-- C1: when the detector is active, the bus connects and interface
resolution yields a present interface, `systemdUpDNS` issues at most the
two calls `SetLinkDNS` (marshaled servers, interface index) then
`SetLinkDomains` (marshaled domains, same index) in that order; it returns
success exactly when both calls report no error; when the first call
succeeds both calls are issued in order; when the first call fails the
second is never issued and the wrapped error is returned; when the second
fails its wrapped error is returned. -/
theorem claim_C1_up_two_calls (env : Env) (servers : List IP)
    (domains : List String) (iface : Interface)
    (hact : systemdIsActive env.readlinkResolvConf = true)
    (hbus : env.systemBus = .ok ())
    (hif : env.tailscaleInterface = .ok (some iface)) :
    ((systemdUpDNS env servers domains).1 = .ok () ↔
      env.callResult (setLinkDNSCall iface.Index (linkNameserversOf servers)) = none ∧
      env.callResult (setLinkDomainsCall iface.Index (linkDomainsOf domains)) = none) ∧
    (env.callResult (setLinkDNSCall iface.Index (linkNameserversOf servers)) = none →
      (systemdUpDNS env servers domains).2 =
        [setLinkDNSCall iface.Index (linkNameserversOf servers),
         setLinkDomainsCall iface.Index (linkDomainsOf domains)]) ∧
    (∀ e, env.callResult (setLinkDNSCall iface.Index (linkNameserversOf servers)) = some e →
      (systemdUpDNS env servers domains).1 = .error (.setLinkDNSFailed e) ∧
      (systemdUpDNS env servers domains).2 =
        [setLinkDNSCall iface.Index (linkNameserversOf servers)]) ∧
    (∀ e, env.callResult (setLinkDNSCall iface.Index (linkNameserversOf servers)) = none →
      env.callResult (setLinkDomainsCall iface.Index (linkDomainsOf domains)) = some e →
      (systemdUpDNS env servers domains).1 = .error (.setLinkDomainsFailed e)) := by
  rw [upDNS_active env servers domains iface hact hbus hif]
  cases h1 : env.callResult (setLinkDNSCall iface.Index (linkNameserversOf servers)) with
  | some e => simp [h1]
  | none =>
    cases h2 : env.callResult (setLinkDomainsCall iface.Index (linkDomainsOf domains)) with
    | some e => simp [h1, h2]
    | none => simp [h1, h2]

/-- C1 witness: in `envAllOk` with interface index 7, the conclusion holds
concretely. -/
theorem claim_C1_up_two_calls_witness :
    ((systemdUpDNS envAllOk [ip4One, ip6One] ["corp.example."]).1 = .ok () ↔
      envAllOk.callResult
        (setLinkDNSCall (7 : Int) (linkNameserversOf [ip4One, ip6One])) = none ∧
      envAllOk.callResult
        (setLinkDomainsCall (7 : Int) (linkDomainsOf ["corp.example."])) = none) ∧
    (envAllOk.callResult
        (setLinkDNSCall (7 : Int) (linkNameserversOf [ip4One, ip6One])) = none →
      (systemdUpDNS envAllOk [ip4One, ip6One] ["corp.example."]).2 =
        [setLinkDNSCall (7 : Int) (linkNameserversOf [ip4One, ip6One]),
         setLinkDomainsCall (7 : Int) (linkDomainsOf ["corp.example."])]) ∧
    (∀ e, envAllOk.callResult
        (setLinkDNSCall (7 : Int) (linkNameserversOf [ip4One, ip6One])) = some e →
      (systemdUpDNS envAllOk [ip4One, ip6One] ["corp.example."]).1 =
        .error (.setLinkDNSFailed e) ∧
      (systemdUpDNS envAllOk [ip4One, ip6One] ["corp.example."]).2 =
        [setLinkDNSCall (7 : Int) (linkNameserversOf [ip4One, ip6One])]) ∧
    (∀ e, envAllOk.callResult
        (setLinkDNSCall (7 : Int) (linkNameserversOf [ip4One, ip6One])) = none →
      envAllOk.callResult
        (setLinkDomainsCall (7 : Int) (linkDomainsOf ["corp.example."])) = some e →
      (systemdUpDNS envAllOk [ip4One, ip6One] ["corp.example."]).1 =
        .error (.setLinkDomainsFailed e)) :=
  claim_C1_up_two_calls envAllOk [ip4One, ip6One] ["corp.example."] ⟨7⟩ rfl rfl rfl

/-- C2: for every target string among the stub-resolver path variants,
`systemdIsActive` on a successful link read returns true; for every other
target it returns false; on any link-read failure it returns false. (It is
a total function into `Bool`, so it cannot raise an error.) -/
theorem claim_C2_isActive :
    (∀ t, t ∈ systemdStubPaths → systemdIsActive (.ok t) = true) ∧
    (∀ t, t ∉ systemdStubPaths → systemdIsActive (.ok t) = false) ∧
    (∀ e, systemdIsActive (.error e) = false) := by
  refine ⟨?_, ?_, fun e => rfl⟩
  · intro t ht
    simp only [systemdIsActive, List.any_eq_true, beq_iff_eq]
    exact ⟨t, ht, rfl⟩
  · intro t ht
    simp only [systemdIsActive, List.any_eq_false, beq_iff_eq]
    intro x hx hxt
    exact ht (hxt ▸ hx)

/-- C2 witness: a stub path yields true, a foreign target yields false, a
failed read yields false. -/
theorem claim_C2_isActive_witness :
    systemdIsActive (.ok "/usr/lib/systemd/resolv.conf") = true ∧
    systemdIsActive (.ok "/etc/static/resolv.conf") = false ∧
    systemdIsActive (.error "readlink /etc/resolv.conf: invalid argument") = false :=
  ⟨claim_C2_isActive.1 "/usr/lib/systemd/resolv.conf" (by decide),
   claim_C2_isActive.2.1 "/etc/static/resolv.conf" (by decide),
   claim_C2_isActive.2.2 "readlink /etc/resolv.conf: invalid argument"⟩

/-- C3: marshaling preserves length and order (entry i is the marshaling
of input i); a v4 address yields family AF_INET and the last 4 bytes of
its 16-byte form (exactly 4 bytes); a v6 address yields family AF_INET6
and the full 16-byte form. -/
theorem claim_C3_marshal_nameservers (servers : List IP) (i : Nat) (s : IP)
    (hs : servers[i]? = some s) :
    (linkNameserversOf servers).length = servers.length ∧
    (linkNameserversOf servers)[i]? = some (marshalNameserver s) ∧
    (s.is4 = true →
      (marshalNameserver s).Family = AF_INET ∧
      (marshalNameserver s).Address = s.as16.drop 12 ∧
      (marshalNameserver s).Address.length = 4) ∧
    (s.is4 = false →
      (marshalNameserver s).Family = AF_INET6 ∧
      (marshalNameserver s).Address = s.as16 ∧
      (marshalNameserver s).Address.length = 16) := by
  refine ⟨by simp [linkNameserversOf], by simp [linkNameserversOf, hs], ?_, ?_⟩
  · intro h4
    simp [marshalNameserver, h4, s.as16_len]
  · intro h6
    simp [marshalNameserver, h6, s.as16_len]

/-- C3 witness: at the two-server list [1.1.1.1, 2606:4700:4700::1111],
position 0 marshals to the AF_INET form. -/
theorem claim_C3_marshal_nameservers_witness :
    (linkNameserversOf [ip4One, ip6One]).length = ([ip4One, ip6One] : List IP).length ∧
    (linkNameserversOf [ip4One, ip6One])[0]? = some (marshalNameserver ip4One) ∧
    (ip4One.is4 = true →
      (marshalNameserver ip4One).Family = AF_INET ∧
      (marshalNameserver ip4One).Address = ip4One.as16.drop 12 ∧
      (marshalNameserver ip4One).Address.length = 4) ∧
    (ip4One.is4 = false →
      (marshalNameserver ip4One).Family = AF_INET6 ∧
      (marshalNameserver ip4One).Address = ip4One.as16 ∧
      (marshalNameserver ip4One).Address.length = 16) :=
  claim_C3_marshal_nameservers [ip4One, ip6One] 0 ip4One rfl

/-- C4: whenever the detector reports inactive, both `systemdUpDNS` and
`systemdDownDNS` return `errNotSystemd` with an empty call trace; the
environment's bus, interface-resolution and call-outcome components are
universally quantified and unused, so no remote call is issued and no
external state is touched. -/
theorem claim_C4_notSystemd (env : Env) (servers : List IP)
    (domains : List String)
    (h : systemdIsActive env.readlinkResolvConf = false) :
    systemdUpDNS env servers domains = (.error .notSystemd, []) ∧
    systemdDownDNS env = (.error .notSystemd, []) :=
  ⟨upDNS_inactive env servers domains h, downDNS_inactive env h⟩

/-- C4 witness: in `envInactive` (link read fails) both operations return
`errNotSystemd` and issue no call. -/
theorem claim_C4_notSystemd_witness :
    systemdUpDNS envInactive [ip4One] ["corp.example."] = (.error .notSystemd, []) ∧
    systemdDownDNS envInactive = (.error .notSystemd, []) :=
  claim_C4_notSystemd envInactive [ip4One] ["corp.example."] rfl

/-- C5: with the detector active and the bus connected, interface
resolution yielding no error but no interface makes both operations return
`errNotReady` with no call issued; interface resolution reporting an error
makes both return the wrapped resolution failure carrying the original
cause, with no call issued; and the two outcomes are distinct error
values. -/
theorem claim_C5_iface_outcomes (env : Env) (servers : List IP)
    (domains : List String)
    (hact : systemdIsActive env.readlinkResolvConf = true)
    (hbus : env.systemBus = .ok ()) :
    (env.tailscaleInterface = .ok none →
      systemdUpDNS env servers domains = (.error .notReady, []) ∧
      systemdDownDNS env = (.error .notReady, [])) ∧
    (∀ e, env.tailscaleInterface = .error e →
      systemdUpDNS env servers domains = (.error (.ifaceResolve e), []) ∧
      systemdDownDNS env = (.error (.ifaceResolve e), [])) ∧
    (∀ e, DNSError.notReady ≠ DNSError.ifaceResolve e) := by
  refine ⟨fun hif => ⟨upDNS_noIface env servers domains hact hbus hif,
      downDNS_noIface env hact hbus hif⟩,
    fun e hif => ⟨upDNS_ifaceError env servers domains hact hbus hif,
      downDNS_ifaceError env hact hbus hif⟩,
    fun e h => by cases h⟩

/-- C5 witness: in `envNoIface` both operations return `errNotReady` with
no call, and `errNotReady` differs from a wrapped resolution failure. -/
theorem claim_C5_iface_outcomes_witness :
    (envNoIface.tailscaleInterface = .ok none →
      systemdUpDNS envNoIface [ip4One] ["corp.example."] = (.error .notReady, []) ∧
      systemdDownDNS envNoIface = (.error .notReady, [])) ∧
    (∀ e, envNoIface.tailscaleInterface = .error e →
      systemdUpDNS envNoIface [ip4One] ["corp.example."] =
        (.error (.ifaceResolve e), []) ∧
      systemdDownDNS envNoIface = (.error (.ifaceResolve e), [])) ∧
    (∀ e, DNSError.notReady ≠ DNSError.ifaceResolve e) :=
  claim_C5_iface_outcomes envNoIface [ip4One] ["corp.example."] rfl rfl

/-- C6: the timeout constant is one second (10^9 nanoseconds, Go
`time.Second`); every remote call either operation ever issues carries a
context with that timeout budget; and when the first call of
`systemdUpDNS` ends with the context deadline exceeded, the operation
fails with a timeout-kind error and only that first call was issued — the
`SetLinkDomains` call never happens. -/
theorem claim_C6_timeout (env : Env) (servers : List IP)
    (domains : List String) (iface : Interface)
    (hact : systemdIsActive env.readlinkResolvConf = true)
    (hbus : env.systemBus = .ok ())
    (hif : env.tailscaleInterface = .ok (some iface))
    (htime : env.callResult (setLinkDNSCall iface.Index (linkNameserversOf servers)) =
      some .deadlineExceeded) :
    systemdSetTimeout = 1000000000 ∧
    (∀ env' servers' domains' c, c ∈ (systemdUpDNS env' servers' domains').2 →
      c.ctxTimeout = systemdSetTimeout) ∧
    (∀ env' c, c ∈ (systemdDownDNS env').2 → c.ctxTimeout = systemdSetTimeout) ∧
    resultIsTimeout (systemdUpDNS env servers domains).1 = true ∧
    (systemdUpDNS env servers domains).2 =
      [setLinkDNSCall iface.Index (linkNameserversOf servers)] := by
  refine ⟨rfl, fun env' s' d' c hc => upDNS_calls_timeout env' s' d' c hc,
    fun env' c hc => downDNS_calls_timeout env' c hc, ?_, ?_⟩ <;>
  · rw [upDNS_active env servers domains iface hact hbus hif]
    simp [htime, resultIsTimeout, DNSError.isTimeout]

/-- C6 witness: in `envCall1Timeout` with interface index 7 the operation
fails with a timeout-kind error after only the first call. -/
theorem claim_C6_timeout_witness :
    systemdSetTimeout = 1000000000 ∧
    (∀ env' servers' domains' c, c ∈ (systemdUpDNS env' servers' domains').2 →
      c.ctxTimeout = systemdSetTimeout) ∧
    (∀ env' c, c ∈ (systemdDownDNS env').2 → c.ctxTimeout = systemdSetTimeout) ∧
    resultIsTimeout (systemdUpDNS envCall1Timeout [ip4One] ["corp.example."]).1 = true ∧
    (systemdUpDNS envCall1Timeout [ip4One] ["corp.example."]).2 =
      [setLinkDNSCall (7 : Int) (linkNameserversOf [ip4One])] :=
  claim_C6_timeout envCall1Timeout [ip4One] ["corp.example."] ⟨7⟩ rfl rfl rfl rfl

/-- C7: domain marshaling preserves length and order (entry i is the input
domain i paired with flag false), and every marshaled entry has
`RoutingOnly` false. -/
theorem claim_C7_marshal_domains (domains : List String) (i : Nat) (d : String)
    (hd : domains[i]? = some d) :
    (linkDomainsOf domains).length = domains.length ∧
    (linkDomainsOf domains)[i]? = some ⟨d, false⟩ ∧
    (∀ entry ∈ linkDomainsOf domains, entry.RoutingOnly = false) := by
  refine ⟨by simp [linkDomainsOf], by simp [linkDomainsOf, hd], ?_⟩
  intro entry he
  simp only [linkDomainsOf, List.mem_map] at he
  obtain ⟨d', _, h⟩ := he
  rw [← h]

/-- C7 witness: at the one-domain list the marshaled entry is the domain
with flag false. -/
theorem claim_C7_marshal_domains_witness :
    (linkDomainsOf ["corp.example."]).length = (["corp.example."] : List String).length ∧
    (linkDomainsOf ["corp.example."])[0]? = some ⟨"corp.example.", false⟩ ∧
    (∀ entry ∈ linkDomainsOf ["corp.example."], entry.RoutingOnly = false) :=
  claim_C7_marshal_domains ["corp.example."] 0 "corp.example." rfl

/-- C8: `systemdDownDNS` performs the same detector check (inactive gives
`errNotSystemd`, no call) and the same interface resolution (absent
interface gives `errNotReady`, no call; failed resolution gives the
wrapped cause, no call) as `systemdUpDNS`; its single call carries the
same context timeout; and when the detector is active and the interface
present it issues exactly the one `RevertLink` call with the interface
index, succeeding exactly when that call reports no error. -/
theorem claim_C8_down (env : Env) (iface : Interface)
    (hact : systemdIsActive env.readlinkResolvConf = true)
    (hbus : env.systemBus = .ok ())
    (hif : env.tailscaleInterface = .ok (some iface)) :
    ((systemdDownDNS env).1 = .ok () ↔
      env.callResult (revertLinkCall iface.Index) = none) ∧
    (systemdDownDNS env).2 = [revertLinkCall iface.Index] ∧
    (∀ e, env.callResult (revertLinkCall iface.Index) = some e →
      (systemdDownDNS env).1 = .error (.revertLinkFailed e)) ∧
    (revertLinkCall iface.Index).ctxTimeout = systemdSetTimeout ∧
    (∀ env', systemdIsActive env'.readlinkResolvConf = false →
      systemdDownDNS env' = (.error .notSystemd, [])) ∧
    (∀ env', systemdIsActive env'.readlinkResolvConf = true →
      env'.systemBus = .ok () → env'.tailscaleInterface = .ok none →
      systemdDownDNS env' = (.error .notReady, [])) ∧
    (∀ env' e, systemdIsActive env'.readlinkResolvConf = true →
      env'.systemBus = .ok () → env'.tailscaleInterface = .error e →
      systemdDownDNS env' = (.error (.ifaceResolve e), [])) := by
  refine ⟨?_, ?_, ?_, rfl, fun env' h => downDNS_inactive env' h,
    fun env' h1 h2 h3 => downDNS_noIface env' h1 h2 h3,
    fun env' e h1 h2 h3 => downDNS_ifaceError env' h1 h2 h3⟩ <;>
  · rw [downDNS_active env iface hact hbus hif]
    cases hc : env.callResult (revertLinkCall iface.Index) <;> simp [hc]

/-- C8 witness: in `envAllOk` with interface index 7 the revert conclusion
holds concretely. -/
theorem claim_C8_down_witness :
    ((systemdDownDNS envAllOk).1 = .ok () ↔
      envAllOk.callResult (revertLinkCall (7 : Int)) = none) ∧
    (systemdDownDNS envAllOk).2 = [revertLinkCall (7 : Int)] ∧
    (∀ e, envAllOk.callResult (revertLinkCall (7 : Int)) = some e →
      (systemdDownDNS envAllOk).1 = .error (.revertLinkFailed e)) ∧
    (revertLinkCall (7 : Int)).ctxTimeout = systemdSetTimeout ∧
    (∀ env', systemdIsActive env'.readlinkResolvConf = false →
      systemdDownDNS env' = (.error .notSystemd, [])) ∧
    (∀ env', systemdIsActive env'.readlinkResolvConf = true →
      env'.systemBus = .ok () → env'.tailscaleInterface = .ok none →
      systemdDownDNS env' = (.error .notReady, [])) ∧
    (∀ env' e, systemdIsActive env'.readlinkResolvConf = true →
      env'.systemBus = .ok () → env'.tailscaleInterface = .error e →
      systemdDownDNS env' = (.error (.ifaceResolve e), [])) :=
  claim_C8_down envAllOk ⟨7⟩ rfl rfl rfl

/-- C9: with the detector active, a failed bus connection makes both
operations return the wrapped connection error — an error distinct from
`errNotSystemd`, `errNotReady`, every wrapped remote-call failure and the
timeout kind — with no call issued and without depending on the
interface-resolution component (it is universally quantified and unused);
and when the detector is inactive the operations return `errNotSystemd`
for every bus component, so the bus connection matters only after the
detector reports active. -/
theorem claim_C9_bus_fail (env : Env) (servers : List IP)
    (domains : List String) (e : String)
    (hact : systemdIsActive env.readlinkResolvConf = true)
    (hbus : env.systemBus = .error e) :
    systemdUpDNS env servers domains = (.error (.busConnect e), []) ∧
    systemdDownDNS env = (.error (.busConnect e), []) ∧
    DNSError.busConnect e ≠ .notSystemd ∧
    DNSError.busConnect e ≠ .notReady ∧
    (∀ c, DNSError.busConnect e ≠ .setLinkDNSFailed c) ∧
    (∀ c, DNSError.busConnect e ≠ .setLinkDomainsFailed c) ∧
    (∀ c, DNSError.busConnect e ≠ .revertLinkFailed c) ∧
    (DNSError.busConnect e).isTimeout = false ∧
    (∀ env' servers' domains', systemdIsActive env'.readlinkResolvConf = false →
      systemdUpDNS env' servers' domains' = (.error .notSystemd, []) ∧
      systemdDownDNS env' = (.error .notSystemd, [])) :=
  ⟨upDNS_busError env servers domains hact hbus,
   downDNS_busError env hact hbus,
   nofun, nofun,
   fun _ => nofun, fun _ => nofun, fun _ => nofun,
   rfl,
   fun env' servers' domains' h =>
     ⟨upDNS_inactive env' servers' domains' h, downDNS_inactive env' h⟩⟩

/-- C9 witness: in `envBusFail` both operations return the wrapped
connection error with no call issued. -/
theorem claim_C9_bus_fail_witness :
    systemdUpDNS envBusFail [ip4One] ["corp.example."] =
      (.error (.busConnect "dial unix /var/run/dbus/system_bus_socket"), []) ∧
    systemdDownDNS envBusFail =
      (.error (.busConnect "dial unix /var/run/dbus/system_bus_socket"), []) ∧
    DNSError.busConnect "dial unix /var/run/dbus/system_bus_socket" ≠ .notSystemd ∧
    DNSError.busConnect "dial unix /var/run/dbus/system_bus_socket" ≠ .notReady ∧
    (∀ c, DNSError.busConnect "dial unix /var/run/dbus/system_bus_socket" ≠
      .setLinkDNSFailed c) ∧
    (∀ c, DNSError.busConnect "dial unix /var/run/dbus/system_bus_socket" ≠
      .setLinkDomainsFailed c) ∧
    (∀ c, DNSError.busConnect "dial unix /var/run/dbus/system_bus_socket" ≠
      .revertLinkFailed c) ∧
    (DNSError.busConnect "dial unix /var/run/dbus/system_bus_socket").isTimeout = false ∧
    (∀ env' servers' domains', systemdIsActive env'.readlinkResolvConf = false →
      systemdUpDNS env' servers' domains' = (.error .notSystemd, []) ∧
      systemdDownDNS env' = (.error .notSystemd, [])) :=
  claim_C9_bus_fail envBusFail [ip4One] ["corp.example."]
    "dial unix /var/run/dbus/system_bus_socket" rfl rfl

/-- C10: with the detector active, the bus connected and the interface
present, calling `systemdUpDNS` with empty server and domain lists still
issues the `SetLinkDNS` call with the empty nameserver sequence, and —
when that call succeeds — also the `SetLinkDomains` call with the empty
domain sequence; emptiness never skips a call. -/
theorem claim_C10_empty_lists (env : Env) (iface : Interface)
    (hact : systemdIsActive env.readlinkResolvConf = true)
    (hbus : env.systemBus = .ok ())
    (hif : env.tailscaleInterface = .ok (some iface)) :
    linkNameserversOf [] = [] ∧
    linkDomainsOf [] = [] ∧
    (env.callResult (setLinkDNSCall iface.Index []) = none →
      (systemdUpDNS env [] []).2 =
        [setLinkDNSCall iface.Index [], setLinkDomainsCall iface.Index []]) ∧
    (∀ e, env.callResult (setLinkDNSCall iface.Index []) = some e →
      (systemdUpDNS env [] []).2 = [setLinkDNSCall iface.Index []]) := by
  refine ⟨rfl, rfl, ?_, ?_⟩ <;>
  · rw [upDNS_active env [] [] iface hact hbus hif]
    cases hc : env.callResult (setLinkDNSCall iface.Index []) with
    | none =>
      cases hcc : env.callResult (setLinkDomainsCall iface.Index []) <;>
        simp [linkNameserversOf, linkDomainsOf, hc, hcc]
    | some e => simp [linkNameserversOf, linkDomainsOf, hc]

/-- C10 witness: in `envAllOk` with interface index 7 and empty inputs
both calls are issued with empty sequences. -/
theorem claim_C10_empty_lists_witness :
    linkNameserversOf [] = [] ∧
    linkDomainsOf [] = [] ∧
    (envAllOk.callResult (setLinkDNSCall (7 : Int) []) = none →
      (systemdUpDNS envAllOk [] []).2 =
        [setLinkDNSCall (7 : Int) [], setLinkDomainsCall (7 : Int) []]) ∧
    (∀ e, envAllOk.callResult (setLinkDNSCall (7 : Int) []) = some e →
      (systemdUpDNS envAllOk [] []).2 = [setLinkDNSCall (7 : Int) []]) :=
  claim_C10_empty_lists envAllOk ⟨7⟩ rfl rfl rfl

end DnsLinux
